import Mathlib

/-!
Verification of the adaptive-RAG orchestration repository.

Part one embeds the chain definitions found under src/graph/chains
(answer_grader.py, hallucination_grader.py, generation.py).  Structured
model output is decoded into pydantic-style records; the language-model
call itself is an external collaborator and is represented by an explicit
behavior function.
-/

namespace AgenticRag

/-- A JSON-style value, the shape a structured-output model call can emit
for a single field. -/
inductive JsonVal where
  | str (s : String)
  | num (n : Int)
  | bool (b : Bool)
  | null
deriving DecidableEq, Repr

/-- From src/graph/chains/answer_grader.py: pydantic model GradeAnswer with
a single field binary_score typed as a plain string. -/
structure GradeAnswer where
  binary_score : String
deriving DecidableEq, Repr

/-- From src/graph/chains/hallucination_grader.py: pydantic model
GradeHallucinations with a single field binary_score typed as a plain
string. -/
structure GradeHallucinations where
  binary_score : String
deriving DecidableEq, Repr

/-- Pydantic validation failure for a structured-output field. -/
inductive DecodeError where
  | missingField
  | wrongType
deriving DecidableEq, Repr

/-- Pydantic validation of a field annotated with the python type str: a
present string value is accepted as-is (whatever its content); a missing
field or a non-string value is a validation error. -/
def decodeStrField : Option JsonVal → Except DecodeError String
  | Option.none => Except.error DecodeError.missingField
  | Option.some (JsonVal.str s) => Except.ok s
  | Option.some (JsonVal.num _) => Except.error DecodeError.wrongType
  | Option.some (JsonVal.bool _) => Except.error DecodeError.wrongType
  | Option.some JsonVal.null => Except.error DecodeError.wrongType

/-- Decoding a model response into GradeAnswer: validate the binary_score
field with the str-field rule. -/
def decodeGradeAnswer (field : Option JsonVal) : Except DecodeError GradeAnswer :=
  (decodeStrField field).map (fun s => GradeAnswer.mk s)

/-- Decoding a model response into GradeHallucinations: validate the
binary_score field with the str-field rule. -/
def decodeGradeHallucinations (field : Option JsonVal) : Except DecodeError GradeHallucinations :=
  (decodeStrField field).map (fun s => GradeHallucinations.mk s)

/-- Configuration of a ChatGroq language model as constructed in the
source: a model name and a sampling temperature. -/
structure ChatGroq where
  model : String
  temperature : Nat
deriving DecidableEq, Repr

def groqModelName : String := "meta-llama/llama-4-scout-17b-16e-instruct"

/-- From src/graph/chains/answer_grader.py line 14:
ChatGroq(model=..., temperature=0). -/
def answerGraderLlm : ChatGroq := ChatGroq.mk groqModelName 0

/-- From src/graph/chains/hallucination_grader.py line 6:
ChatGroq(model=..., temperature=0). -/
def hallucinationGraderLlm : ChatGroq := ChatGroq.mk groqModelName 0

/-- From src/graph/chains/generation.py line 6:
ChatGroq(model=..., temperature=0). -/
def generationLlm : ChatGroq := ChatGroq.mk groqModelName 0

/-- A chat message: a role tag and a content string. -/
structure Message where
  role : String
  content : String
deriving DecidableEq, Repr

def systemRole : String := "system"

def humanRole : String := "human"

/-- The system prompt of the answer grader (answer_grader.py). -/
def answerGraderSystem : String :=
  "You are a grader assessing whether an answer addresses / resolves a question \n \n     Give a binary score \x27yes\x27 or \x27no\x27. Yes\x27 means that the answer resolves the question."

/-- The system prompt of the hallucination grader
(hallucination_grader.py). -/
def hallucinationGraderSystem : String :=
  "You are a grader assessing whether an LLM generation is grounded in / supported by a set of retrieved facts. \n \n     Give a binary score \x27yes\x27 or \x27no\x27 to indicate the answer is grounded in and supported by the set of facts."

def answerHumanPre : String := "User question: \n\n "

def answerHumanMid : String := " \n\n LLM generation: "

def factsPre : String := "Set of facts: \n\n "

def factsMid : String := " \n\n LLM generation: "

def docSep : String := "\n\n"

/-- answer_prompt from answer_grader.py: a system message plus a human
message whose template consumes exactly the question and generation
variables. -/
def answer_prompt (question generation : String) : List Message :=
  [Message.mk systemRole answerGraderSystem,
   Message.mk humanRole (answerHumanPre ++ question ++ answerHumanMid ++ generation)]

/-- hallucination_prompt from hallucination_grader.py: a system message
plus a human message whose template consumes the documents and generation
variables. -/
def hallucination_prompt (documents : List String) (generation : String) : List Message :=
  [Message.mk systemRole hallucinationGraderSystem,
   Message.mk humanRole (factsPre ++ String.intercalate docSep documents ++ factsMid ++ generation)]

/-- Modelled from the spec: the language-model invocation is an external
collaborator, an opaque oracle.  A behavior function gives the model
answer for a prompt and a sampling draw; a temperature-zero configuration
has no sampling randomness to control for, so the draw is ignored there. -/
def groqInvoke {α : Type} (cfg : ChatGroq) (behavior : List Message → Nat → α)
    (msgs : List Message) (draw : Nat) : α :=
  if cfg.temperature = 0 then behavior msgs 0 else behavior msgs draw

/-- Input record available to a grading chain at invocation time.  The
answer grader is invoked with the question and the generation; the
documents of the current run state are carried along so dependence on
them can be stated and refuted. -/
structure GraderInput where
  question : String
  generation : String
  documents : List String
deriving DecidableEq, Repr

/-- answer_grader from answer_grader.py: answer_prompt piped into the
structured-output grader over answerGraderLlm. -/
def answer_grader (behavior : List Message → Nat → Option JsonVal)
    (input : GraderInput) (draw : Nat) : Except DecodeError GradeAnswer :=
  decodeGradeAnswer
    (groqInvoke answerGraderLlm behavior (answer_prompt input.question input.generation) draw)

/-- hallucination_grader from hallucination_grader.py:
hallucination_prompt piped into the structured-output grader over
hallucinationGraderLlm. -/
def hallucination_grader (behavior : List Message → Nat → Option JsonVal)
    (documents : List String) (generation : String) (draw : Nat) :
    Except DecodeError GradeHallucinations :=
  decodeGradeHallucinations
    (groqInvoke hallucinationGraderLlm behavior (hallucination_prompt documents generation) draw)

/-- A chat-model response message. -/
structure AIMessage where
  content : String
deriving DecidableEq, Repr

/-- A value flowing between stages of a LangChain runnable sequence:
either a structured message object, a plain text string, or null. -/
inductive ChainOutput where
  | message (m : AIMessage)
  | text (s : String)
  | null
deriving DecidableEq, Repr

/-- StrOutputParser from generation.py: extracts the plain string content
from a message output; a string passes through; null passes through. -/
def strOutputParserStep : ChainOutput → ChainOutput
  | ChainOutput.message m => ChainOutput.text m.content
  | ChainOutput.text s => ChainOutput.text s
  | ChainOutput.null => ChainOutput.null

def contextHeader : String := "Context: "

def questionHeader : String := " Question: "

/-- Modelled from the spec: the rag prompt is pulled from an external hub
(hub.pull of rlm/rag-prompt, not part of the repository); per the
Generation Oracle contract it formats the context documents and question
into a single prompt. -/
def ragPrompt (context : List String) (question : String) : List Message :=
  [Message.mk humanRole
    (contextHeader ++ String.intercalate docSep context ++ questionHeader ++ question)]

/-- generation_chain from generation.py: prompt piped into the chat model
piped into StrOutputParser. -/
def generation_chain (behavior : List Message → Nat → AIMessage)
    (context : List String) (question : String) (draw : Nat) : ChainOutput :=
  strOutputParserStep
    (ChainOutput.message (groqInvoke generationLlm behavior (ragPrompt context question) draw))

/-! ## Routing Oracle (spec section 4.1; router module absent from src) -/

/-- The two data-source labels of the routing contract. -/
inductive Datasource where
  | vectorstore
  | websearch
deriving DecidableEq, Repr

/-- Error raised when the routing model returns a label outside the fixed
enumeration. -/
inductive InvalidRouteError where
  | invalidRoute
deriving DecidableEq, Repr

def vectorstoreLabel : String := "vectorstore"

def websearchLabel : String := "websearch"

/-- Modelled from the spec: the Routing Oracle (the router module is not
part of src).  route(question) validates the raw label returned by the
underlying model against the closed two-label enumeration and fails with
InvalidRouteError on anything else; it is a pure function of the question
text. -/
def route (model : String → String) (question : String) :
    Except InvalidRouteError Datasource :=
  if model question = vectorstoreLabel then Except.ok Datasource.vectorstore
  else if model question = websearchLabel then Except.ok Datasource.websearch
  else Except.error InvalidRouteError.invalidRoute

/-! ## Control-Flow Graph (spec section 4.5; the orchestrator is absent
from src) -/

/-- The states of the control-flow graph, exactly the rows of the
state-transition table of the spec. -/
inductive Node where
  | ROUTE
  | RETRIEVE
  | WEBSEARCH
  | GRADE_DOCS
  | GENERATE
  | GRADE_GENERATION
  | ACCEPT
  | FAIL
deriving DecidableEq, Repr

/-- Modelled from the spec: the oracle and collaborator family available
to one run of the graph.  The routing label here is already validated to
the two-label enumeration (section 4.1); verdicts are binary. -/
structure Oracles where
  route : String → Datasource
  retrieve : String → List String
  search : String → List String
  gradeDocument : String → String → Bool
  generate : String → List String → String
  gradeGrounding : List String → String → Bool
  gradeAdequacy : String → String → Bool

/-- Modelled from the spec: RunState, the mutable per-request record
holding the question, current DocumentSet, current Generation, the
generation-attempt counter and the single-use websearch-fallback flag,
together with the current graph node. -/
structure RunState where
  node : Node
  question : String
  documents : List String
  generation : String
  attempts : Nat
  websearchTried : Bool
deriving DecidableEq, Repr

/-- The two oracle calls the GRADE_GENERATION state can make. -/
inductive GCall where
  | grounding
  | adequacy
deriving DecidableEq, Repr

/-- Modelled from the spec: the GRADE_GENERATION entry action, calling
gradeGrounding first and then, only if grounded, gradeAdequacy.  Returns
the list of oracle calls made (in order), the grounding verdict, and the
adequacy verdict (false when not evaluated). -/
def gradeGenerationEval (o : Oracles) (question : String) (documents : List String)
    (generation : String) : List GCall × Bool × Bool :=
  if o.gradeGrounding documents generation then
    ([GCall.grounding, GCall.adequacy], true, o.gradeAdequacy question generation)
  else
    ([GCall.grounding], false, false)

/-- Modelled from the spec: the pure transition function of the
control-flow graph, one row of the state-transition table per branch.
R is the maximum number of generation retries. -/
def step (R : Nat) (o : Oracles) (s : RunState) : RunState :=
  match s.node with
  | Node.ROUTE =>
      match o.route s.question with
      | Datasource.vectorstore => { s with node := Node.RETRIEVE }
      | Datasource.websearch => { s with node := Node.WEBSEARCH }
  | Node.RETRIEVE =>
      { s with node := Node.GRADE_DOCS, documents := o.retrieve s.question }
  | Node.WEBSEARCH =>
      { s with node := Node.GRADE_DOCS, documents := o.search s.question,
               websearchTried := true }
  | Node.GRADE_DOCS =>
      if s.documents.filter (fun d => o.gradeDocument s.question d) = [] then
        if s.websearchTried then
          { s with node := Node.FAIL,
                   documents := s.documents.filter (fun d => o.gradeDocument s.question d) }
        else
          { s with node := Node.WEBSEARCH,
                   documents := s.documents.filter (fun d => o.gradeDocument s.question d) }
      else
        { s with node := Node.GENERATE,
                 documents := s.documents.filter (fun d => o.gradeDocument s.question d) }
  | Node.GENERATE =>
      { s with node := Node.GRADE_GENERATION,
               generation := o.generate s.question s.documents,
               attempts := s.attempts + 1 }
  | Node.GRADE_GENERATION =>
      if (gradeGenerationEval o s.question s.documents s.generation).2.1 = true ∧
         (gradeGenerationEval o s.question s.documents s.generation).2.2 = true then
        { s with node := Node.ACCEPT }
      else if (gradeGenerationEval o s.question s.documents s.generation).2.1 = false ∧
              s.attempts < R then
        { s with node := Node.GENERATE }
      else if (gradeGenerationEval o s.question s.documents s.generation).2.1 = true ∧
              (gradeGenerationEval o s.question s.documents s.generation).2.2 = false ∧
              s.websearchTried = false then
        { s with node := Node.WEBSEARCH }
      else
        { s with node := Node.FAIL }
  | Node.ACCEPT => s
  | Node.FAIL => s

/-- Running the graph: n transition steps from a state. -/
def runSteps (R : Nat) (o : Oracles) : Nat → RunState → RunState
  | 0, s => s
  | Nat.succ n, s => step R o (runSteps R o n s)

/-- The initial run state for a question: at the ROUTE node with empty
documents, no generation, zero attempts, fallback unused. -/
def initState (question : String) : RunState :=
  RunState.mk Node.ROUTE question [] "" 0 false

/-- A state is terminal when it sits at ACCEPT or FAIL. -/
def isTerminal (s : RunState) : Bool :=
  match s.node with
  | Node.ACCEPT => true
  | Node.FAIL => true
  | _ => false

/-- Weight of a node in the termination potential. -/
def nodeWeight : Node → Nat
  | Node.ROUTE => 5
  | Node.RETRIEVE => 4
  | Node.GRADE_DOCS => 3
  | Node.GRADE_GENERATION => 2
  | Node.GENERATE => 1
  | Node.WEBSEARCH => 0
  | Node.ACCEPT => 0
  | Node.FAIL => 0

/-- Termination potential of a run state: strictly decreases on every
non-terminal transition. -/
def potential (R : Nat) (s : RunState) : Nat :=
  8 * (R + 1 - s.attempts) + (if s.websearchTried then 0 else 16) + nodeWeight s.node

/-- Reachability invariant of the graph (for a retry bound of at least
one): bounds the attempt counter by node and fallback flag. -/
def StateInv (R : Nat) (s : RunState) : Prop :=
  match s.node with
  | Node.ROUTE => s.attempts = 0 ∧ s.websearchTried = false
  | Node.RETRIEVE => s.attempts = 0 ∧ s.websearchTried = false
  | Node.WEBSEARCH => s.websearchTried = false ∧ s.attempts ≤ R
  | Node.GRADE_DOCS => s.attempts ≤ R ∧ (s.websearchTried = false → s.attempts = 0)
  | Node.GENERATE => s.attempts ≤ R ∧ (s.websearchTried = false → s.attempts < R)
  | Node.GRADE_GENERATION =>
      s.attempts ≤ R + 1 ∧ (s.websearchTried = false → s.attempts ≤ R)
  | Node.ACCEPT => s.attempts ≤ R + 1
  | Node.FAIL => s.attempts ≤ R + 1

/-- Outcome status of the public entry point. -/
inductive Status where
  | accepted
  | failed
deriving DecidableEq, Repr

/-- Result record of the public entry point: a status and an optional
answer text. -/
structure AnswerResult where
  status : Status
  text : Option String
deriving DecidableEq, Repr

/-- Modelled from the spec: the public entry point
answer(question) -> (status, text).  It runs the control-flow graph to a
terminal state (the potential of the initial state bounds the number of
steps needed) and maps ACCEPT to an accepted status carrying the final
generation, and every other outcome to a failed status with no text. -/
def answer (R : Nat) (o : Oracles) (question : String) : AnswerResult :=
  if (runSteps R o (potential R (initState question)) (initState question)).node
      = Node.ACCEPT then
    AnswerResult.mk Status.accepted
      (Option.some (runSteps R o (potential R (initState question)) (initState question)).generation)
  else
    AnswerResult.mk Status.failed Option.none

def qDemo : String := "agent memory"

def docDemo : String := "agents can store memories"

def genDemo : String := "agents have memory"

/-- A concrete scripted oracle family: routes to the vectorstore,
retrieval finds one document, every verdict is positive. -/
def demoOracles : Oracles :=
  Oracles.mk (fun _ => Datasource.vectorstore) (fun _ => [docDemo]) (fun _ => [])
    (fun _ _ => true) (fun _ _ => genDemo) (fun _ _ => true) (fun _ _ => true)

/-- A concrete scripted oracle family: routes to the vectorstore,
retrieval finds one relevant document, the generation is graded grounded
but never adequate. -/
def cexOracles : Oracles :=
  Oracles.mk (fun _ => Datasource.vectorstore) (fun _ => [docDemo]) (fun _ => [])
    (fun _ _ => true) (fun _ _ => genDemo) (fun _ _ => true) (fun _ _ => false)

/-- A concrete run state sitting at the GRADE_DOCS node. -/
def gradeDocsState : RunState :=
  RunState.mk Node.GRADE_DOCS qDemo [docDemo] "" 0 false

def yesLabel : String := "yes"

def noLabel : String := "no"

def maybeLabel : String := "maybe"

/-- A scripted structured-output behavior answering yes to everything. -/
def yesBehavior : List Message → Nat → Option JsonVal :=
  fun _ _ => Option.some (JsonVal.str yesLabel)

/-! ## Lemmas about the control-flow graph -/

theorem step_question (R : Nat) (o : Oracles) (s : RunState) :
    (step R o s).question = s.question := by
  obtain ⟨node, q, docs, gen, a, w⟩ := s
  cases node with
  | ROUTE => simp only [step]; cases o.route q <;> rfl
  | RETRIEVE => rfl
  | WEBSEARCH => rfl
  | GRADE_DOCS => simp only [step]; split_ifs <;> rfl
  | GENERATE => rfl
  | GRADE_GENERATION => simp only [step]; split_ifs <;> rfl
  | ACCEPT => rfl
  | FAIL => rfl

theorem step_terminal (R : Nat) (o : Oracles) (s : RunState)
    (h : isTerminal s = true) : step R o s = s := by
  obtain ⟨node, q, docs, gen, a, w⟩ := s
  cases node <;> simp [isTerminal] at h <;> rfl

theorem runSteps_terminal (R : Nat) (o : Oracles) (n : Nat) (s : RunState)
    (h : isTerminal s = true) : runSteps R o n s = s := by
  induction n with
  | zero => rfl
  | succ n ih => simp only [runSteps, ih, step_terminal R o s h]

theorem runSteps_add (R : Nat) (o : Oracles) (a b : Nat) (s : RunState) :
    runSteps R o (a + b) s = runSteps R o a (runSteps R o b s) := by
  induction a with
  | zero => simp [runSteps]
  | succ a ih => simp only [Nat.succ_add, runSteps, ih]

theorem runSteps_succ_left (R : Nat) (o : Oracles) (n : Nat) (s : RunState) :
    runSteps R o (n + 1) s = runSteps R o n (step R o s) := by
  induction n generalizing s with
  | zero => rfl
  | succ n ih => simp only [runSteps] at ih ⊢; rw [ih]

theorem question_runSteps (R : Nat) (o : Oracles) (n : Nat) (s : RunState) :
    (runSteps R o n s).question = s.question := by
  induction n with
  | zero => rfl
  | succ n ih => simp only [runSteps, step_question, ih]

theorem inv_init (R : Nat) (q : String) : StateInv R (initState q) := by
  simp [StateInv, initState]

theorem inv_step (R : Nat) (hR : 1 ≤ R) (o : Oracles) (s : RunState)
    (h : StateInv R s) : StateInv R (step R o s) := by
  obtain ⟨node, q, docs, gen, a, w⟩ := s
  cases node with
  | ROUTE =>
      simp only [step]
      cases o.route q <;> cases w <;> simp_all [StateInv] <;> omega
  | RETRIEVE =>
      cases w <;> simp_all [StateInv, step] <;> omega
  | WEBSEARCH =>
      cases w <;> simp_all [StateInv, step] <;> omega
  | GRADE_DOCS =>
      simp only [step]
      split_ifs <;> cases w <;> simp_all [StateInv] <;> omega
  | GENERATE =>
      cases w <;> simp_all [StateInv, step] <;> omega
  | GRADE_GENERATION =>
      simp only [step]
      split_ifs <;> cases w <;> simp_all [StateInv] <;> omega
  | ACCEPT => exact h
  | FAIL => exact h

theorem potential_step (R : Nat) (hR : 1 ≤ R) (o : Oracles) (s : RunState)
    (h : StateInv R s) (ht : isTerminal s = false) :
    potential R (step R o s) < potential R s := by
  obtain ⟨node, q, docs, gen, a, w⟩ := s
  cases node with
  | ROUTE =>
      simp only [step]
      cases o.route q <;> cases w <;> simp_all [StateInv, potential, nodeWeight] <;> omega
  | RETRIEVE =>
      cases w <;> simp_all [StateInv, step, potential, nodeWeight] <;> omega
  | WEBSEARCH =>
      cases w <;> simp_all [StateInv, step, potential, nodeWeight] <;> omega
  | GRADE_DOCS =>
      simp only [step]
      split_ifs <;> cases w <;> simp_all [StateInv, potential, nodeWeight] <;> omega
  | GENERATE =>
      cases w <;> simp_all [StateInv, step, potential, nodeWeight] <;> omega
  | GRADE_GENERATION =>
      simp only [step]
      split_ifs <;> cases w <;> simp_all [StateInv, potential, nodeWeight] <;> omega
  | ACCEPT => simp [isTerminal] at ht
  | FAIL => simp [isTerminal] at ht

theorem potential_pos (R : Nat) (s : RunState) (h : StateInv R s)
    (ht : isTerminal s = false) : 1 ≤ potential R s := by
  obtain ⟨node, q, docs, gen, a, w⟩ := s
  cases node <;> cases w <;> simp_all [StateInv, potential, nodeWeight, isTerminal] <;> omega

theorem inv_runSteps (R : Nat) (hR : 1 ≤ R) (o : Oracles) (n : Nat) (s : RunState)
    (h : StateInv R s) : StateInv R (runSteps R o n s) := by
  induction n with
  | zero => exact h
  | succ n ih => exact inv_step R hR o _ ih

theorem attempts_le (R : Nat) (s : RunState) (h : StateInv R s) :
    s.attempts ≤ R + 1 := by
  obtain ⟨node, q, docs, gen, a, w⟩ := s
  cases node <;> cases w <;> simp_all [StateInv] <;> omega

theorem reach_terminal (R : Nat) (hR : 1 ≤ R) (o : Oracles) :
    ∀ (k : Nat) (s : RunState), StateInv R s → potential R s ≤ k →
      isTerminal (runSteps R o k s) = true := by
  intro k
  induction k with
  | zero =>
      intro s h hp
      simp only [runSteps]
      by_contra hc
      have hfalse : isTerminal s = false := by
        cases hterm : isTerminal s
        · rfl
        · exact absurd hterm hc
      have h1 := potential_pos R s h hfalse
      omega
  | succ k ih =>
      intro s h hp
      cases hterm : isTerminal s with
      | true =>
          rw [runSteps_terminal R o _ s hterm]
          exact hterm
      | false =>
          rw [runSteps_succ_left]
          refine ih (step R o s) (inv_step R hR o s h) ?hpot
          have hlt := potential_step R hR o s h hterm
          omega

/-! ## Claim theorems -/

/-- C2: the GRADE_GENERATION evaluation calls the grounding grader before
the adequacy grader and calls the adequacy grader only when the grounding
verdict is grounded: its oracle-call trace starts with the grounding call,
omits the adequacy call whenever grounding is not-grounded, and is either
the singleton grounding trace or the grounding-then-adequacy trace. -/
theorem c2_grounding_before_adequacy (o : Oracles) (question : String)
    (documents : List String) (generation : String) :
    ((gradeGenerationEval o question documents generation).1.head?
        = Option.some GCall.grounding) ∧
    (o.gradeGrounding documents generation = false →
      GCall.adequacy ∉ (gradeGenerationEval o question documents generation).1) ∧
    ((gradeGenerationEval o question documents generation).1 = [GCall.grounding] ∨
     (gradeGenerationEval o question documents generation).1
        = [GCall.grounding, GCall.adequacy]) := by
  cases hg : o.gradeGrounding documents generation <;>
    simp [gradeGenerationEval, hg]

/-- C3 (counterexample): the claim that a grader label outside the
two-element enumeration fails to decode is false on the code: binary_score
is a plain string field, so the out-of-enumeration label maybe decodes
into valid GradeAnswer and GradeHallucinations records. -/
theorem c3_counterexample :
    decodeGradeAnswer (Option.some (JsonVal.str maybeLabel))
        = Except.ok (GradeAnswer.mk maybeLabel) ∧
    decodeGradeHallucinations (Option.some (JsonVal.str maybeLabel))
        = Except.ok (GradeHallucinations.mk maybeLabel) ∧
    maybeLabel ≠ yesLabel ∧ maybeLabel ≠ noLabel := by
  exact ⟨rfl, rfl, by decide, by decide⟩

/-- C3 (amended): the graders' binary_score field is a free string, not a
closed enumeration: decoding succeeds for every string label, including
labels outside the yes/no pair; decoding fails only when the field is
missing or of a non-string type. -/
theorem c3_amended :
    (∀ s : String, decodeGradeAnswer (Option.some (JsonVal.str s))
        = Except.ok (GradeAnswer.mk s)) ∧
    (∀ s : String, decodeGradeHallucinations (Option.some (JsonVal.str s))
        = Except.ok (GradeHallucinations.mk s)) ∧
    decodeGradeAnswer Option.none = Except.error DecodeError.missingField ∧
    decodeGradeHallucinations Option.none = Except.error DecodeError.missingField ∧
    (∀ n : Int, decodeGradeAnswer (Option.some (JsonVal.num n))
        = Except.error DecodeError.wrongType) ∧
    (∀ b : Bool, decodeGradeHallucinations (Option.some (JsonVal.bool b))
        = Except.error DecodeError.wrongType) := by
  exact ⟨fun _ => rfl, fun _ => rfl, rfl, rfl, fun _ => rfl, fun _ => rfl⟩

/-- C4: route returns exactly one of the two labels, characterized by the
raw label of the underlying model; any other raw label yields
InvalidRouteError; and the result depends only on the label the model
gives the question text. -/
theorem c4_route_contract (model : String → String) (question : String) :
    (route model question = Except.ok Datasource.vectorstore ↔
      model question = vectorstoreLabel) ∧
    (route model question = Except.ok Datasource.websearch ↔
      model question = websearchLabel) ∧
    (route model question = Except.error InvalidRouteError.invalidRoute ↔
      (model question ≠ vectorstoreLabel ∧ model question ≠ websearchLabel)) ∧
    (∀ (model2 : String → String) (q2 : String),
      model question = model2 q2 → route model question = route model2 q2) := by
  refine ⟨?_, ?_, ?_, ?_⟩
  · unfold route
    split_ifs with h1 h2 <;> simp_all [vectorstoreLabel, websearchLabel]
  · unfold route
    split_ifs with h1 h2 <;> simp_all [vectorstoreLabel, websearchLabel]
  · unfold route
    split_ifs with h1 h2 <;> simp_all [vectorstoreLabel, websearchLabel]
  · intro model2 q2 h
    unfold route
    rw [h]

/-- C8: the three chains are configured at zero sampling temperature, and
therefore grading the same pair twice, under any two sampling draws,
yields the same verdict for both the hallucination grader and the answer
grader (and the generation chain likewise repeats its output). -/
theorem c8_grading_deterministic :
    answerGraderLlm.temperature = 0 ∧
    hallucinationGraderLlm.temperature = 0 ∧
    generationLlm.temperature = 0 ∧
    (∀ (behavior : List Message → Nat → Option JsonVal) (documents : List String)
        (generation : String) (draw1 draw2 : Nat),
      hallucination_grader behavior documents generation draw1
        = hallucination_grader behavior documents generation draw2) ∧
    (∀ (behavior : List Message → Nat → Option JsonVal) (input : GraderInput)
        (draw1 draw2 : Nat),
      answer_grader behavior input draw1 = answer_grader behavior input draw2) ∧
    (∀ (behavior : List Message → Nat → AIMessage) (context : List String)
        (question : String) (draw1 draw2 : Nat),
      generation_chain behavior context question draw1
        = generation_chain behavior context question draw2) := by
  exact ⟨rfl, rfl, rfl, fun _ _ _ _ _ => rfl, fun _ _ _ _ => rfl, fun _ _ _ _ _ => rfl⟩

/-- C9: the adequacy verdict depends only on the question and the
generation: the answer-grader prompt consumes exactly those two variables,
so two invocations agreeing on them, with arbitrarily different document
sets, produce the same verdict. -/
theorem c9_adequacy_ignores_documents
    (behavior : List Message → Nat → Option JsonVal) (a b : GraderInput) (draw : Nat)
    (hq : a.question = b.question) (hg : a.generation = b.generation) :
    answer_grader behavior a draw = answer_grader behavior b draw := by
  simp [answer_grader, answer_prompt, hq, hg]

/-- C9 witness: two concrete inputs sharing question and generation but
with different document sets grade identically. -/
theorem c9_witness :
    answer_grader yesBehavior (GraderInput.mk qDemo genDemo [docDemo]) 0
      = answer_grader yesBehavior (GraderInput.mk qDemo genDemo []) 0 :=
  c9_adequacy_ignores_documents yesBehavior (GraderInput.mk qDemo genDemo [docDemo])
    (GraderInput.mk qDemo genDemo []) 0 rfl rfl

/-- C10: every successful invocation of the generation chain yields a
plain text string (the chain ends in the string output parser), never a
structured message object and never null. -/
theorem c10_generation_chain_text (behavior : List Message → Nat → AIMessage)
    (context : List String) (question : String) (draw : Nat) :
    (∃ s : String, generation_chain behavior context question draw = ChainOutput.text s) ∧
    (∀ m : AIMessage, generation_chain behavior context question draw ≠ ChainOutput.message m) ∧
    generation_chain behavior context question draw ≠ ChainOutput.null := by
  refine ⟨⟨(groqInvoke generationLlm behavior (ragPrompt context question) draw).content, rfl⟩, ?_, ?_⟩
  · intro m hc
    simp [generation_chain, strOutputParserStep] at hc
  · intro hc
    simp [generation_chain, strOutputParserStep] at hc

/-- C1: the control-flow graph terminates.  The generation-attempt
counter strictly increases on every execution of the GENERATE state, and
from the initial state of any question the run reaches a terminal state
within the potential bound, with at most (max retries + 1) generation
attempts, and stays there: no infinite loop through the
GENERATE/GRADE_GENERATION cycle is reachable. -/
theorem c1_termination (R : Nat) (hR : 1 ≤ R) (o : Oracles) (question : String) :
    (∀ s : RunState, s.node = Node.GENERATE →
      (step R o s).attempts = s.attempts + 1) ∧
    (∃ n : Nat, n ≤ potential R (initState question) ∧
      isTerminal (runSteps R o n (initState question)) = true ∧
      (runSteps R o n (initState question)).attempts ≤ R + 1 ∧
      (∀ m : Nat, n ≤ m →
        runSteps R o m (initState question) = runSteps R o n (initState question))) := by
  constructor
  · intro s hs
    obtain ⟨node, q, docs, gen, a, w⟩ := s
    cases node <;> first | rfl | simp at hs
  · refine ⟨potential R (initState question), le_refl _, ?_, ?_, ?_⟩
    · exact reach_terminal R hR o _ _ (inv_init R question) (le_refl _)
    · exact attempts_le R _ (inv_runSteps R hR o _ _ (inv_init R question))
    · intro m hm
      have hterm := reach_terminal R hR o (potential R (initState question))
        (initState question) (inv_init R question) (le_refl _)
      have hdecomp : m = (m - potential R (initState question))
          + potential R (initState question) := by omega
      rw [hdecomp, runSteps_add]
      exact runSteps_terminal R o _ _ hterm

/-- C1 witness: the termination theorem instantiated at retry bound 3
with a concrete scripted oracle family and question. -/
theorem c1_witness :
    (∀ s : RunState, s.node = Node.GENERATE →
      (step 3 demoOracles s).attempts = s.attempts + 1) ∧
    (∃ n : Nat, n ≤ potential 3 (initState qDemo) ∧
      isTerminal (runSteps 3 demoOracles n (initState qDemo)) = true ∧
      (runSteps 3 demoOracles n (initState qDemo)).attempts ≤ 3 + 1 ∧
      (∀ m : Nat, n ≤ m →
        runSteps 3 demoOracles m (initState qDemo)
          = runSteps 3 demoOracles n (initState qDemo))) :=
  c1_termination 3 (by decide) demoOracles qDemo

/-- C5: in the GRADE_DOCS state the relevance verdict acts purely as a
filter: the documents going forward are exactly those graded relevant
(membership characterization included); an empty filtered set with the
fallback still unused transitions to WEBSEARCH, an empty filtered set
after the fallback was already used transitions to FAIL, and a non-empty
filtered set transitions to GENERATE. -/
theorem c5_grade_docs_filter (R : Nat) (o : Oracles) (s : RunState)
    (h : s.node = Node.GRADE_DOCS) :
    ((step R o s).documents
        = s.documents.filter (fun d => o.gradeDocument s.question d)) ∧
    (∀ d : String, d ∈ (step R o s).documents ↔
      d ∈ s.documents ∧ o.gradeDocument s.question d = true) ∧
    (s.documents.filter (fun d => o.gradeDocument s.question d) = [] →
      s.websearchTried = false → (step R o s).node = Node.WEBSEARCH) ∧
    (s.documents.filter (fun d => o.gradeDocument s.question d) = [] →
      s.websearchTried = true → (step R o s).node = Node.FAIL) ∧
    (s.documents.filter (fun d => o.gradeDocument s.question d) ≠ [] →
      (step R o s).node = Node.GENERATE) := by
  obtain ⟨node, q, docs, gen, a, w⟩ := s
  have hnode : node = Node.GRADE_DOCS := h
  subst hnode
  refine ⟨?_, ?_, ?_, ?_, ?_⟩
  · simp only [step]
    split_ifs <;> rfl
  · intro d
    simp only [step]
    split_ifs <;> simp [List.mem_filter]
  · intro hemp hw
    simp only [step]
    split_ifs <;> simp_all
  · intro hemp hw
    simp only [step]
    split_ifs <;> simp_all
  · intro hne
    simp only [step]
    split_ifs <;> simp_all

/-- C5 witness: the filter characterization instantiated on a concrete
GRADE_DOCS state and scripted oracles. -/
theorem c5_witness :
    ((step 3 demoOracles gradeDocsState).documents
        = gradeDocsState.documents.filter
            (fun d => demoOracles.gradeDocument gradeDocsState.question d)) ∧
    (∀ d : String, d ∈ (step 3 demoOracles gradeDocsState).documents ↔
      d ∈ gradeDocsState.documents ∧
        demoOracles.gradeDocument gradeDocsState.question d = true) ∧
    (gradeDocsState.documents.filter
        (fun d => demoOracles.gradeDocument gradeDocsState.question d) = [] →
      gradeDocsState.websearchTried = false →
        (step 3 demoOracles gradeDocsState).node = Node.WEBSEARCH) ∧
    (gradeDocsState.documents.filter
        (fun d => demoOracles.gradeDocument gradeDocsState.question d) = [] →
      gradeDocsState.websearchTried = true →
        (step 3 demoOracles gradeDocsState).node = Node.FAIL) ∧
    (gradeDocsState.documents.filter
        (fun d => demoOracles.gradeDocument gradeDocsState.question d) ≠ [] →
      (step 3 demoOracles gradeDocsState).node = Node.GENERATE) :=
  c5_grade_docs_filter 3 demoOracles gradeDocsState rfl

/-- C6: the public entry point never raises for business-logic outcomes:
the run underlying it reaches a terminal state, a run ending at FAIL maps
exactly to the failed status with null text, a failed status always
carries null text, and the status is always one of accepted or failed. -/
theorem c6_answer_never_raises (R : Nat) (hR : 1 ≤ R) (o : Oracles) (question : String) :
    isTerminal (runSteps R o (potential R (initState question)) (initState question))
        = true ∧
    ((runSteps R o (potential R (initState question)) (initState question)).node
        = Node.FAIL →
      answer R o question = AnswerResult.mk Status.failed Option.none) ∧
    ((answer R o question).status = Status.failed →
      (answer R o question).text = Option.none) ∧
    ((answer R o question).status = Status.accepted ∨
      (answer R o question).status = Status.failed) := by
  refine ⟨?_, ?_, ?_, ?_⟩
  · exact reach_terminal R hR o _ _ (inv_init R question) (le_refl _)
  · intro hf
    simp [answer, hf]
  · unfold answer
    split_ifs <;> simp
  · unfold answer
    split_ifs <;> simp

/-- C6 witness: the entry-point theorem instantiated at retry bound 3
with a concrete scripted oracle family and question. -/
theorem c6_witness :
    isTerminal (runSteps 3 demoOracles (potential 3 (initState qDemo)) (initState qDemo))
        = true ∧
    ((runSteps 3 demoOracles (potential 3 (initState qDemo)) (initState qDemo)).node
        = Node.FAIL →
      answer 3 demoOracles qDemo = AnswerResult.mk Status.failed Option.none) ∧
    ((answer 3 demoOracles qDemo).status = Status.failed →
      (answer 3 demoOracles qDemo).text = Option.none) ∧
    ((answer 3 demoOracles qDemo).status = Status.accepted ∨
      (answer 3 demoOracles qDemo).status = Status.failed) :=
  c6_answer_never_raises 3 (by decide) demoOracles qDemo

/-- C7 (counterexample): the claim that a vectorstore-routed run never
reaches Web Search without GRADE_DOCS first observing an empty filtered
DocumentSet is false: with scripted oracles whose generation is grounded
but never adequate, the run is routed to the vectorstore, reaches the
WEBSEARCH state at step five, and no earlier step is a GRADE_DOCS state
with an empty filtered DocumentSet. -/
theorem c7_counterexample :
    cexOracles.route qDemo = Datasource.vectorstore ∧
    (runSteps 3 cexOracles 5 (initState qDemo)).node = Node.WEBSEARCH ∧
    (∀ m : Nat, m < 5 →
      ¬ ((runSteps 3 cexOracles m (initState qDemo)).node = Node.GRADE_DOCS ∧
        (runSteps 3 cexOracles m (initState qDemo)).documents.filter
          (fun d => cexOracles.gradeDocument
            (runSteps 3 cexOracles m (initState qDemo)).question d) = [])) := by
  refine ⟨rfl, rfl, ?_⟩
  decide

/-- C7 (amended): for a question routed to the vectorstore, the graph
reaches the WEBSEARCH state only after, at some earlier step, either
GRADE_DOCS observed an empty filtered DocumentSet or GRADE_GENERATION
observed a grounded but not adequate generation (the spec's own
grounded-but-not-adequate escalation). -/
theorem c7_amended (R : Nat) (o : Oracles) (question : String) (n : Nat)
    (hroute : o.route question = Datasource.vectorstore)
    (hn : (runSteps R o n (initState question)).node = Node.WEBSEARCH) :
    ∃ m : Nat, m < n ∧
      (((runSteps R o m (initState question)).node = Node.GRADE_DOCS ∧
        (runSteps R o m (initState question)).documents.filter
          (fun d => o.gradeDocument
            (runSteps R o m (initState question)).question d) = []) ∨
       ((runSteps R o m (initState question)).node = Node.GRADE_GENERATION ∧
        o.gradeGrounding (runSteps R o m (initState question)).documents
          (runSteps R o m (initState question)).generation = true ∧
        o.gradeAdequacy (runSteps R o m (initState question)).question
          (runSteps R o m (initState question)).generation = false)) := by
  cases n with
  | zero => simp [runSteps, initState] at hn
  | succ n =>
      have hq : (runSteps R o n (initState question)).question = question :=
        question_runSteps R o n (initState question)
      simp only [runSteps] at hn
      cases htn : (runSteps R o n (initState question)).node with
      | ROUTE =>
          simp only [step, htn, hq, hroute] at hn
          simp at hn
      | RETRIEVE =>
          simp only [step, htn] at hn
          simp at hn
      | WEBSEARCH =>
          simp only [step, htn] at hn
          simp at hn
      | GRADE_DOCS =>
          simp only [step, htn] at hn
          split_ifs at hn with h1 h2
          all_goals first
            | exact ⟨n, Nat.lt_succ_self n, Or.inl ⟨htn, h1⟩⟩
            | simp at hn
      | GENERATE =>
          simp only [step, htn] at hn
          simp at hn
      | GRADE_GENERATION =>
          simp only [step, htn] at hn
          split_ifs at hn with h1 h2 h3
          all_goals first
            | (cases hgr : o.gradeGrounding (runSteps R o n (initState question)).documents
                  (runSteps R o n (initState question)).generation with
               | false => simp [gradeGenerationEval, hgr] at h3
               | true =>
                   simp [gradeGenerationEval, hgr] at h3
                   exact ⟨n, Nat.lt_succ_self n, Or.inr ⟨htn, hgr, h3.1⟩⟩)
            | simp at hn
      | ACCEPT =>
          simp only [step, htn] at hn
          simp at hn
      | FAIL =>
          simp only [step, htn] at hn
          simp at hn

/-- C7 witness: the amended theorem instantiated on the concrete
grounded-but-never-adequate oracle family, where the websearch escalation
at step five is explained by the GRADE_GENERATION observation. -/
theorem c7_witness :
    ∃ m : Nat, m < 5 ∧
      (((runSteps 3 cexOracles m (initState qDemo)).node = Node.GRADE_DOCS ∧
        (runSteps 3 cexOracles m (initState qDemo)).documents.filter
          (fun d => cexOracles.gradeDocument
            (runSteps 3 cexOracles m (initState qDemo)).question d) = []) ∨
       ((runSteps 3 cexOracles m (initState qDemo)).node = Node.GRADE_GENERATION ∧
        cexOracles.gradeGrounding (runSteps 3 cexOracles m (initState qDemo)).documents
          (runSteps 3 cexOracles m (initState qDemo)).generation = true ∧
        cexOracles.gradeAdequacy (runSteps 3 cexOracles m (initState qDemo)).question
          (runSteps 3 cexOracles m (initState qDemo)).generation = false)) :=
  c7_amended 3 cexOracles qDemo 5 rfl rfl

end AgenticRag
